import Mathlib

set_option linter.unusedVariables false

/-!
Verification of the RBAC cache/sync layer of the roleguard-pro repository.

The core is the `useRBAC` hook: three in-memory collections (permissions,
roles, role_permissions) mirroring a remote relational store, CRUD operations
that write through to the store and reconcile the mirror on success, and pure
derived queries.  The remote store is modelled as an oracle: each operation
receives the outcome (`RemoteResult` / an optional error message) of the one
remote call it issues, exactly where the source awaits the supabase client.
Toast notifications emitted by the source are part of each operation's
result, since they are the layer's only user-visible error channel.
-/

/-- Row of the `permissions` table (interface `Permission` in the source). -/
structure Permission where
  id : String
  name : String
  description : Option String
  created_at : String
deriving DecidableEq, Repr

/-- Row of the `roles` table (interface `Role` in the source). -/
structure Role where
  id : String
  name : String
  description : Option String
  created_at : String
deriving DecidableEq, Repr

/-- Row of the `role_permissions` table (interface `RolePermission`). -/
structure RolePermission where
  id : String
  role_id : String
  permission_id : String
  created_at : String
deriving DecidableEq, Repr

/-- The three React state collections held by the `useRBAC` hook: the local
mirror of the remote store. -/
structure RBACState where
  permissions : List Permission
  roles : List Role
  rolePermissions : List RolePermission
deriving DecidableEq, Repr

/-- Outcome of one remote (supabase) call that returns data: the
`{ data, error }` shape destructured by the source.  Exactly one of the two
is present on the paths the source takes. -/
inductive RemoteResult (α : Type) where
  | ok (data : α)
  | err (message : String)
deriving DecidableEq, Repr

/-- `true` iff the remote call failed. -/
def RemoteResult.isErr : RemoteResult α → Bool
  | .ok _ => false
  | .err _ => true

/-- A toast notification (`useToast`); the source also sets a `variant`
(`destructive` on every error path), which carries no extra information. -/
structure Toast where
  title : String
  description : String
deriving DecidableEq, Repr

/-- Result of a hook operation that returns the affected record or `null`:
the value handed back to the caller, the mirror afterwards, and the toasts
emitted. -/
structure OpResult (α : Type) where
  ret : Option α
  st : RBACState
  toasts : List Toast
deriving DecidableEq, Repr

/-- Result of a hook operation that returns a boolean success flag
(`deletePermission`, `deleteRole`, `removePermissionFromRole`). -/
structure FlagResult where
  ok : Bool
  st : RBACState
  toasts : List Toast
deriving DecidableEq, Repr

/-- `[...prev, data].sort((a, b) => a.name.localeCompare(b.name))`:
stable sort by `name`.  `localeCompare` is modelled as code-point string
comparison (a collation under which it coincides with case-sensitive
lexical order). -/
def sortByName (nm : α → String) (l : List α) : List α :=
  l.mergeSort (fun a b => decide (nm a ≤ nm b))

/-- `charsIncludes sub s = true` iff `sub` occurs contiguously in `s`. -/
def charsIncludes (sub : List Char) : List Char → Bool
  | [] => sub.isEmpty
  | c :: t => sub.isPrefixOf (c :: t) || charsIncludes sub t

/-- JavaScript `s.includes(sub)`: substring containment. -/
def strIncludes (s sub : String) : Bool :=
  charsIncludes sub.data s.data

/-- `permission?.name` rendered into a template literal: the name of the
found record, or the string `"undefined"` when the lookup missed. -/
def optionalName (o : Option String) : String :=
  match o with
  | some s => s
  | none => "undefined"

/-- The error toast of `fetchData`'s catch branch. -/
def loadErrorToast : Toast :=
  ⟨"Error loading data", "Could not load roles and permissions. Please try again."⟩

/-- `fetchData` (the `load()` refresh): three concurrent reads; the error of
each result is checked in turn and any error jumps to the catch branch,
which emits the error toast and leaves all three collections as they were.
Only after all three checks succeed are the three collections replaced.
`hasUser` models the `if (!user) return` guard. -/
def fetchData (hasUser : Bool) (st : RBACState)
    (permRes : RemoteResult (List Permission)) (roleRes : RemoteResult (List Role))
    (rpRes : RemoteResult (List RolePermission)) : RBACState × List Toast :=
  if !hasUser then (st, [])
  else
    match permRes with
    | .err _ => (st, [loadErrorToast])
    | .ok ps =>
      match roleRes with
      | .err _ => (st, [loadErrorToast])
      | .ok rs =>
        match rpRes with
        | .err _ => (st, [loadErrorToast])
        | .ok rps => (⟨ps, rs, rps⟩, [])

/-- `createPermission(name, description?)`: inserts remotely; on error,
toast and `null` with the mirror untouched; on success, append the returned
record and sort by name. -/
def createPermission (st : RBACState) (name : String) (description : Option String)
    (res : RemoteResult Permission) : OpResult Permission :=
  match res with
  | .err e => ⟨none, st, [⟨"Error creating permission", e⟩]⟩
  | .ok data =>
      ⟨some data,
       { st with permissions := sortByName Permission.name (st.permissions ++ [data]) },
       [⟨"Permission created", s!"\"{name}\" has been created."⟩]⟩

/-- `updatePermission(id, name, description?)`: updates remotely; on success,
replace the matching local entry by the returned record and re-sort. -/
def updatePermission (st : RBACState) (id name : String) (description : Option String)
    (res : RemoteResult Permission) : OpResult Permission :=
  match res with
  | .err e => ⟨none, st, [⟨"Error updating permission", e⟩]⟩
  | .ok data =>
      let ps := sortByName Permission.name
        (st.permissions.map (fun p => if p.id == id then data else p))
      ⟨some data, { st with permissions := ps },
       [⟨"Permission updated", s!"\"{name}\" has been updated."⟩]⟩

/-- `deletePermission(id)`: deletes remotely; on success, remove the entry
from the Permission mirror and every Assignment whose `permission_id`
equals `id`. -/
def deletePermission (st : RBACState) (id : String) (err : Option String) : FlagResult :=
  let nm := optionalName ((st.permissions.find? (fun p => p.id == id)).map Permission.name)
  match err with
  | some e => ⟨false, st, [⟨"Error deleting permission", e⟩]⟩
  | none =>
      let ps := st.permissions.filter (fun p => !(p.id == id))
      let rps := st.rolePermissions.filter (fun rp => !(rp.permission_id == id))
      ⟨true, { st with permissions := ps, rolePermissions := rps },
       [⟨"Permission deleted", s!"\"{nm}\" has been deleted."⟩]⟩

/-- `createRole(name, description?)`: as `createPermission`, on the Role
collection. -/
def createRole (st : RBACState) (name : String) (description : Option String)
    (res : RemoteResult Role) : OpResult Role :=
  match res with
  | .err e => ⟨none, st, [⟨"Error creating role", e⟩]⟩
  | .ok data =>
      ⟨some data,
       { st with roles := sortByName Role.name (st.roles ++ [data]) },
       [⟨"Role created", s!"\"{name}\" has been created."⟩]⟩

/-- `updateRole(id, name, description?)`: as `updatePermission`, on Roles. -/
def updateRole (st : RBACState) (id name : String) (description : Option String)
    (res : RemoteResult Role) : OpResult Role :=
  match res with
  | .err e => ⟨none, st, [⟨"Error updating role", e⟩]⟩
  | .ok data =>
      let rs := sortByName Role.name
        (st.roles.map (fun r => if r.id == id then data else r))
      ⟨some data, { st with roles := rs },
       [⟨"Role updated", s!"\"{name}\" has been updated."⟩]⟩

/-- `deleteRole(id)`: deletes remotely; on success, remove the Role and every
Assignment whose `role_id` equals `id`. -/
def deleteRole (st : RBACState) (id : String) (err : Option String) : FlagResult :=
  let nm := optionalName ((st.roles.find? (fun r => r.id == id)).map Role.name)
  match err with
  | some e => ⟨false, st, [⟨"Error deleting role", e⟩]⟩
  | none =>
      let rs := st.roles.filter (fun r => !(r.id == id))
      let rps := st.rolePermissions.filter (fun rp => !(rp.role_id == id))
      ⟨true, { st with roles := rs, rolePermissions := rps },
       [⟨"Role deleted", s!"\"{nm}\" has been deleted."⟩]⟩

/-- `assignPermissionToRole(roleId, permissionId)`: inserts remotely; the
error branch distinguishes, by `error.message.includes('duplicate')`, the
"Already assigned" toast from the generic one, returning `null` either way;
on success the new Assignment is appended (no sort). -/
def assignPermissionToRole (st : RBACState) (roleId permissionId : String)
    (res : RemoteResult RolePermission) : OpResult RolePermission :=
  match res with
  | .err e =>
      if strIncludes e "duplicate" then
        ⟨none, st, [⟨"Already assigned", "This permission is already assigned to the role."⟩]⟩
      else
        ⟨none, st, [⟨"Error assigning permission", e⟩]⟩
  | .ok data =>
      let rn := optionalName ((st.roles.find? (fun r => r.id == roleId)).map Role.name)
      let pn := optionalName
        ((st.permissions.find? (fun p => p.id == permissionId)).map Permission.name)
      ⟨some data,
       { st with rolePermissions := st.rolePermissions ++ [data] },
       [⟨"Permission assigned", s!"\"{pn}\" assigned to \"{rn}\"."⟩]⟩

/-- `removePermissionFromRole(roleId, permissionId)`: deletes remotely by
both keys; on success, filter out the matching Assignment(s). -/
def removePermissionFromRole (st : RBACState) (roleId permissionId : String)
    (err : Option String) : FlagResult :=
  match err with
  | some e => ⟨false, st, [⟨"Error removing permission", e⟩]⟩
  | none =>
      let rn := optionalName ((st.roles.find? (fun r => r.id == roleId)).map Role.name)
      let pn := optionalName
        ((st.permissions.find? (fun p => p.id == permissionId)).map Permission.name)
      let rps := st.rolePermissions.filter
        (fun rp => !(rp.role_id == roleId && rp.permission_id == permissionId))
      ⟨true, { st with rolePermissions := rps },
       [⟨"Permission removed", s!"\"{pn}\" removed from \"{rn}\"."⟩]⟩

/-- `getPermissionsForRole(roleId)`: pure derived query over the mirror. -/
def getPermissionsForRole (st : RBACState) (roleId : String) : List Permission :=
  let permissionIds :=
    (st.rolePermissions.filter (fun rp => rp.role_id == roleId)).map RolePermission.permission_id
  st.permissions.filter (fun p => permissionIds.contains p.id)

/-- `getRolesForPermission(permissionId)`: pure derived query over the
mirror. -/
def getRolesForPermission (st : RBACState) (permissionId : String) : List Role :=
  let roleIds :=
    (st.rolePermissions.filter (fun rp => rp.permission_id == permissionId)).map
      RolePermission.role_id
  st.roles.filter (fun r => roleIds.contains r.id)

/-- The `data` payload of an AI response (`AIResponse.data` in
`AIAssistant.tsx`); every field is optional. -/
structure AIData where
  name : Option String
  description : Option String
  role_name : Option String
  permission_name : Option String
deriving DecidableEq, Repr

/-- The structured action object returned by the external model
(`AIResponse` in `AIAssistant.tsx`). -/
structure AIResponse where
  action : String
  data : Option AIData
  message : String
  error : Option String
deriving DecidableEq, Repr

/-- The `{ success, message }` record returned by `executeAction`. -/
structure ExecOutcome where
  success : Bool
  message : String
deriving DecidableEq, Repr

/-- One invocation of a `useRBAC` operation by the dispatcher; recorded so
that "no remote call issued" is an observable fact of the model. -/
inductive HookCall where
  | createPermCall (name : String) (description : Option String)
  | createRoleCall (name : String) (description : Option String)
  | assignCall (roleId permissionId : String)
  | removeCall (roleId permissionId : String)
deriving DecidableEq, Repr

/-- Remote outcomes available to the dispatcher: one per remote call it can
cause through the hook. -/
structure RemoteEnv where
  permInsert : RemoteResult Permission
  roleInsert : RemoteResult Role
  rpInsert : RemoteResult RolePermission
  rpDelete : Option String
deriving Repr

/-- JavaScript `s.toLowerCase()`: per-character lowercasing. -/
def jsToLower (s : String) : String :=
  ⟨s.data.map Char.toLower⟩

/-- JavaScript truthiness test of `data?.name`-style accesses: `true` when
the payload is absent, the field is absent, or the field is the empty
string. -/
def optBlank (o : Option String) : Bool :=
  match o with
  | none => true
  | some s => s.isEmpty

/-- `executeAction` of `AIAssistant.tsx`: dispatches the model-supplied
action object to the `useRBAC` operations, resolving role/permission names
case-insensitively against the current mirror.  Returns the
`{ success, message }` outcome, the mirror afterwards, and the list of hook
operations invoked (each of which issues exactly one remote call). -/
def executeAction (st : RBACState) (env : RemoteEnv) (resp : AIResponse) :
    ExecOutcome × RBACState × List HookCall :=
  if resp.action == "create_permission" then
    let nm := resp.data.bind AIData.name
    if optBlank nm then (⟨false, "Permission name is required"⟩, st, [])
    else
      let n := nm.getD ""
      let d := resp.data.bind AIData.description
      let r := createPermission st n d env.permInsert
      match r.ret with
      | some _ =>
          (⟨true, s!"Permission \"{n}\" created successfully!"⟩, r.st, [.createPermCall n d])
      | none =>
          (⟨false, "Failed to create permission. It may already exist."⟩, r.st,
           [.createPermCall n d])
  else if resp.action == "create_role" then
    let nm := resp.data.bind AIData.name
    if optBlank nm then (⟨false, "Role name is required"⟩, st, [])
    else
      let n := nm.getD ""
      let d := resp.data.bind AIData.description
      let r := createRole st n d env.roleInsert
      match r.ret with
      | some _ =>
          (⟨true, s!"Role \"{n}\" created successfully!"⟩, r.st, [.createRoleCall n d])
      | none =>
          (⟨false, "Failed to create role. It may already exist."⟩, r.st, [.createRoleCall n d])
  else if resp.action == "assign_permission" then
    let rn := resp.data.bind AIData.role_name
    let pn := resp.data.bind AIData.permission_name
    if optBlank rn || optBlank pn then
      (⟨false, "Both role name and permission name are required"⟩, st, [])
    else
      let rnS := rn.getD ""
      let pnS := pn.getD ""
      match st.roles.find? (fun r => jsToLower r.name == jsToLower rnS) with
      | none => (⟨false, s!"Role \"{rnS}\" not found"⟩, st, [])
      | some role =>
        match st.permissions.find? (fun p => jsToLower p.name == jsToLower pnS) with
        | none => (⟨false, s!"Permission \"{pnS}\" not found"⟩, st, [])
        | some perm =>
          let r := assignPermissionToRole st role.id perm.id env.rpInsert
          let pname := perm.name
          let rname := role.name
          match r.ret with
          | some _ =>
              (⟨true, s!"Permission \"{pname}\" assigned to \"{rname}\" successfully!"⟩, r.st,
               [.assignCall role.id perm.id])
          | none =>
              (⟨false, "Failed to assign permission. It may already be assigned."⟩, r.st,
               [.assignCall role.id perm.id])
  else if resp.action == "remove_permission" then
    let rn := resp.data.bind AIData.role_name
    let pn := resp.data.bind AIData.permission_name
    if optBlank rn || optBlank pn then
      (⟨false, "Both role name and permission name are required"⟩, st, [])
    else
      let rnS := rn.getD ""
      let pnS := pn.getD ""
      match st.roles.find? (fun r => jsToLower r.name == jsToLower rnS) with
      | none => (⟨false, s!"Role \"{rnS}\" not found"⟩, st, [])
      | some role =>
        match st.permissions.find? (fun p => jsToLower p.name == jsToLower pnS) with
        | none => (⟨false, s!"Permission \"{pnS}\" not found"⟩, st, [])
        | some perm =>
          let r := removePermissionFromRole st role.id perm.id env.rpDelete
          let pname := perm.name
          let rname := role.name
          if r.ok then
            (⟨true, s!"Permission \"{pname}\" removed from \"{rname}\" successfully!"⟩, r.st,
             [.removeCall role.id perm.id])
          else
            (⟨false, "Failed to remove permission."⟩, r.st, [.removeCall role.id perm.id])
  else if resp.action == "info" then
    (⟨true, resp.message⟩, st, [])
  else
    (⟨true, resp.message⟩, st, [])

/-- JavaScript `s.trim()`: strip leading and trailing whitespace. -/
def jsTrim (s : String) : String :=
  ⟨((s.data.dropWhile Char.isWhitespace).reverse.dropWhile Char.isWhitespace).reverse⟩

/-- The create path of `handleSubmit` in the Permissions page
(`selectedPermission === null`): `if (!formData.name.trim()) return;`
guards the call, and the trimmed name/description are forwarded to
`createPermission` (empty trimmed description becomes `undefined`).  The
boolean records whether `createPermission` was invoked (and hence whether a
remote insert was issued). -/
def handleSubmitCreate (st : RBACState) (name description : String)
    (res : RemoteResult Permission) : Bool × OpResult Permission :=
  if jsTrim name == "" then (false, ⟨none, st, []⟩)
  else
    let d := if jsTrim description == "" then none else some (jsTrim description)
    (true, createPermission st (jsTrim name) d res)

/-- One mutating operation of the cache layer together with the outcome of
the remote call it issues; used to reason about arbitrary operation
sequences. -/
inductive MirrorOp where
  | opCreateP (name : String) (d : Option String) (res : RemoteResult Permission)
  | opUpdateP (id name : String) (d : Option String) (res : RemoteResult Permission)
  | opDeleteP (id : String) (err : Option String)
  | opCreateR (name : String) (d : Option String) (res : RemoteResult Role)
  | opUpdateR (id name : String) (d : Option String) (res : RemoteResult Role)
  | opDeleteR (id : String) (err : Option String)
  | opAssign (roleId permissionId : String) (res : RemoteResult RolePermission)
  | opRemove (roleId permissionId : String) (err : Option String)
deriving Repr

/-- The mirror after running one operation. -/
def applyOp (st : RBACState) : MirrorOp → RBACState
  | .opCreateP n d res => (createPermission st n d res).st
  | .opUpdateP i n d res => (updatePermission st i n d res).st
  | .opDeleteP i err => (deletePermission st i err).st
  | .opCreateR n d res => (createRole st n d res).st
  | .opUpdateR i n d res => (updateRole st i n d res).st
  | .opDeleteR i err => (deleteRole st i err).st
  | .opAssign r p res => (assignPermissionToRole st r p res).st
  | .opRemove r p err => (removePermissionFromRole st r p err).st

/-- The mirror after running a sequence of operations. -/
def applyOps (st : RBACState) (ops : List MirrorOp) : RBACState :=
  ops.foldl applyOp st

/-- A collection is alphabetically ordered when every earlier element's
`name` is `≤` every later one's (code-point comparison). -/
def NameSorted (nm : α → String) (l : List α) : Prop :=
  List.Pairwise (fun a b => nm a ≤ nm b) l

/-! ### Helper lemmas -/

theorem mem_getPermissionsForRole {st : RBACState} {roleId : String} {p : Permission} :
    p ∈ getPermissionsForRole st roleId ↔
      p ∈ st.permissions ∧
        ∃ rp, rp ∈ st.rolePermissions ∧ rp.role_id = roleId ∧ rp.permission_id = p.id := by
  simp only [getPermissionsForRole, List.mem_filter, List.contains, List.elem_iff,
    List.mem_map, List.mem_filter, beq_iff_eq]
  constructor
  · rintro ⟨hp, rp, ⟨hrp, hrole⟩, hpid⟩
    exact ⟨hp, rp, hrp, hrole, hpid⟩
  · rintro ⟨hp, rp, hrp, hrole, hpid⟩
    exact ⟨hp, rp, ⟨hrp, hrole⟩, hpid⟩

theorem mem_getRolesForPermission {st : RBACState} {permissionId : String} {r : Role} :
    r ∈ getRolesForPermission st permissionId ↔
      r ∈ st.roles ∧
        ∃ rp, rp ∈ st.rolePermissions ∧ rp.permission_id = permissionId ∧ rp.role_id = r.id := by
  simp only [getRolesForPermission, List.mem_filter, List.contains, List.elem_iff,
    List.mem_map, List.mem_filter, beq_iff_eq]
  constructor
  · rintro ⟨hr, rp, ⟨hrp, hpid⟩, hrole⟩
    exact ⟨hr, rp, hrp, hpid, hrole⟩
  · rintro ⟨hr, rp, hrp, hpid, hrole⟩
    exact ⟨hr, rp, ⟨hrp, hpid⟩, hrole⟩

/-! ### Claims -/

/-- C7: `getPermissionsForRole(roleId)` is a pure function of the mirror
returning exactly the Permissions whose `id` appears as `permission_id` in
some Assignment with that `role_id`, in the Permission collection's current
order (the result is a sublist of the collection); `getRolesForPermission`
is symmetric.  Both are plain functions of `RBACState` — they take no remote
outcome and return no new state. -/
theorem derived_queries_exact :
    ∀ (st : RBACState) (roleId permissionId : String) (p : Permission) (r : Role),
      (p ∈ getPermissionsForRole st roleId ↔
        p ∈ st.permissions ∧
          ∃ rp, rp ∈ st.rolePermissions ∧ rp.role_id = roleId ∧ rp.permission_id = p.id) ∧
      (getPermissionsForRole st roleId).Sublist st.permissions ∧
      (r ∈ getRolesForPermission st permissionId ↔
        r ∈ st.roles ∧
          ∃ rp, rp ∈ st.rolePermissions ∧ rp.permission_id = permissionId ∧ rp.role_id = r.id) ∧
      (getRolesForPermission st permissionId).Sublist st.roles := by
  intro st roleId permissionId p r
  exact ⟨mem_getPermissionsForRole, List.filter_sublist _,
    mem_getRolesForPermission, List.filter_sublist _⟩

/-- C1: a successful `deletePermission(id)` removes the Permission with that
id from the Permission mirror and every Assignment whose `permission_id`
equals `id` (and symmetrically a successful `deleteRole(id)` removes every
Assignment whose `role_id` equals `id`), so that afterwards no Assignment
referencing the deleted entity is reachable via `getPermissionsForRole` or
`getRolesForPermission`. -/
theorem cascade_delete_correct :
    ∀ (st : RBACState) (id : String),
      ((deletePermission st id none).ok = true ∧
        (deletePermission st id none).st.permissions =
          st.permissions.filter (fun p => !(p.id == id)) ∧
        (deletePermission st id none).st.rolePermissions =
          st.rolePermissions.filter (fun rp => !(rp.permission_id == id)) ∧
        (deletePermission st id none).st.roles = st.roles ∧
        getRolesForPermission (deletePermission st id none).st id = [] ∧
        (∀ roleId q, q ∈ getPermissionsForRole (deletePermission st id none).st roleId →
          q.id ≠ id)) ∧
      ((deleteRole st id none).ok = true ∧
        (deleteRole st id none).st.roles = st.roles.filter (fun r => !(r.id == id)) ∧
        (deleteRole st id none).st.rolePermissions =
          st.rolePermissions.filter (fun rp => !(rp.role_id == id)) ∧
        (deleteRole st id none).st.permissions = st.permissions ∧
        getPermissionsForRole (deleteRole st id none).st id = [] ∧
        (∀ pid q, q ∈ getRolesForPermission (deleteRole st id none).st pid → q.id ≠ id)) := by
  intro st id
  refine ⟨⟨rfl, rfl, rfl, rfl, ?_, ?_⟩, ⟨rfl, rfl, rfl, rfl, ?_, ?_⟩⟩
  · -- the deleted permission id occurs in no remaining assignment
    apply List.filter_eq_nil_iff.mpr
    intro r hr
    simp only [List.contains, List.elem_iff, List.mem_map, List.mem_filter]
    rintro ⟨rp, ⟨hrp, hpid⟩, _⟩
    have hmem := List.mem_filter.mp hrp
    simp only [Bool.not_eq_eq_eq_not, Bool.not_true, beq_eq_false_iff_ne, beq_iff_eq]
      at hpid hmem
    exact absurd hpid hmem.2
  · intro roleId q hq
    have hmem := (mem_getPermissionsForRole.mp hq).1
    have := (List.mem_filter.mp hmem).2
    simp only [Bool.not_eq_eq_eq_not, Bool.not_true, beq_eq_false_iff_ne] at this
    exact this
  · apply List.filter_eq_nil_iff.mpr
    intro p hp
    simp only [List.contains, List.elem_iff, List.mem_map, List.mem_filter]
    rintro ⟨rp, ⟨hrp, hrid⟩, _⟩
    have hmem := List.mem_filter.mp hrp
    simp only [Bool.not_eq_eq_eq_not, Bool.not_true, beq_eq_false_iff_ne, beq_iff_eq]
      at hrid hmem
    exact absurd hrid hmem.2
  · intro pid q hq
    have hmem := (mem_getRolesForPermission.mp hq).1
    have := (List.mem_filter.mp hmem).2
    simp only [Bool.not_eq_eq_eq_not, Bool.not_true, beq_eq_false_iff_ne] at this
    exact this

/-- C1 witness: on a concrete two-permission, one-role, one-assignment
mirror, deleting permission `"p1"` empties its assignment and leaves it
unreachable from both derived queries. -/
theorem cascade_delete_correct_witness :
    (deletePermission ⟨[⟨"p1", "a", none, "t"⟩, ⟨"p2", "b", none, "t"⟩],
        [⟨"r1", "R", none, "t"⟩], [⟨"l1", "r1", "p1", "t"⟩]⟩ "p1" none).st.rolePermissions = [] ∧
      getRolesForPermission (deletePermission ⟨[⟨"p1", "a", none, "t"⟩, ⟨"p2", "b", none, "t"⟩],
        [⟨"r1", "R", none, "t"⟩], [⟨"l1", "r1", "p1", "t"⟩]⟩ "p1" none).st "p1" = [] ∧
      (∀ q, q ∈ getPermissionsForRole (deletePermission
          ⟨[⟨"p1", "a", none, "t"⟩, ⟨"p2", "b", none, "t"⟩], [⟨"r1", "R", none, "t"⟩],
            [⟨"l1", "r1", "p1", "t"⟩]⟩ "p1" none).st "r1" → q.id ≠ "p1") := by
  refine ⟨by decide, ?_, ?_⟩
  · exact (cascade_delete_correct ⟨[⟨"p1", "a", none, "t"⟩, ⟨"p2", "b", none, "t"⟩],
      [⟨"r1", "R", none, "t"⟩], [⟨"l1", "r1", "p1", "t"⟩]⟩ "p1").1.2.2.2.2.1
  · exact fun q hq => (cascade_delete_correct ⟨[⟨"p1", "a", none, "t"⟩, ⟨"p2", "b", none, "t"⟩],
      [⟨"r1", "R", none, "t"⟩], [⟨"l1", "r1", "p1", "t"⟩]⟩ "p1").1.2.2.2.2.2 "r1" q hq

/-- C2: every mutating operation is all-or-nothing for the mirror.  On a
remote failure it returns its failure indicator (`null` / `false`) with the
whole mirror exactly as before; on a remote success it returns the record
(or `true`) with exactly the operation's local reconciliation applied. -/
theorem mutations_all_or_nothing :
    ∀ (st : RBACState) (name id roleId permissionId : String) (d : Option String)
      (e : String) (pd : Permission) (rd : Role) (ad : RolePermission),
      ((createPermission st name d (.err e)).ret = none ∧
        (createPermission st name d (.err e)).st = st) ∧
      ((createPermission st name d (.ok pd)).ret = some pd ∧
        (createPermission st name d (.ok pd)).st =
          { st with permissions := sortByName Permission.name (st.permissions ++ [pd]) }) ∧
      ((updatePermission st id name d (.err e)).ret = none ∧
        (updatePermission st id name d (.err e)).st = st) ∧
      ((updatePermission st id name d (.ok pd)).ret = some pd ∧
        (updatePermission st id name d (.ok pd)).st =
          { st with permissions :=
                      sortByName Permission.name
                        (st.permissions.map (fun p => if p.id == id then pd else p)) }) ∧
      ((deletePermission st id (some e)).ok = false ∧
        (deletePermission st id (some e)).st = st) ∧
      ((deletePermission st id none).ok = true ∧
        (deletePermission st id none).st =
          { st with
              permissions := st.permissions.filter (fun p => !(p.id == id)),
              rolePermissions :=
                  st.rolePermissions.filter (fun rp => !(rp.permission_id == id)) }) ∧
      ((createRole st name d (.err e)).ret = none ∧ (createRole st name d (.err e)).st = st) ∧
      ((createRole st name d (.ok rd)).ret = some rd ∧
        (createRole st name d (.ok rd)).st =
          { st with roles := sortByName Role.name (st.roles ++ [rd]) }) ∧
      ((updateRole st id name d (.err e)).ret = none ∧
        (updateRole st id name d (.err e)).st = st) ∧
      ((updateRole st id name d (.ok rd)).ret = some rd ∧
        (updateRole st id name d (.ok rd)).st =
          { st with roles :=
                      sortByName Role.name
                        (st.roles.map (fun r => if r.id == id then rd else r)) }) ∧
      ((deleteRole st id (some e)).ok = false ∧ (deleteRole st id (some e)).st = st) ∧
      ((deleteRole st id none).ok = true ∧
        (deleteRole st id none).st =
          { st with
              roles := st.roles.filter (fun r => !(r.id == id)),
              rolePermissions := st.rolePermissions.filter (fun rp => !(rp.role_id == id)) }) ∧
      ((assignPermissionToRole st roleId permissionId (.err e)).ret = none ∧
        (assignPermissionToRole st roleId permissionId (.err e)).st = st) ∧
      ((assignPermissionToRole st roleId permissionId (.ok ad)).ret = some ad ∧
        (assignPermissionToRole st roleId permissionId (.ok ad)).st =
          { st with rolePermissions := st.rolePermissions ++ [ad] }) ∧
      ((removePermissionFromRole st roleId permissionId (some e)).ok = false ∧
        (removePermissionFromRole st roleId permissionId (some e)).st = st) ∧
      ((removePermissionFromRole st roleId permissionId none).ok = true ∧
        (removePermissionFromRole st roleId permissionId none).st =
          { st with rolePermissions :=
                      st.rolePermissions.filter
                        (fun rp =>
                          !(rp.role_id == roleId && rp.permission_id == permissionId)) }) := by
  intro st name id roleId permissionId d e pd rd ad
  refine ⟨⟨rfl, rfl⟩, ⟨rfl, rfl⟩, ⟨rfl, rfl⟩, ⟨rfl, rfl⟩, ⟨rfl, rfl⟩, ⟨rfl, rfl⟩,
    ⟨rfl, rfl⟩, ⟨rfl, rfl⟩, ⟨rfl, rfl⟩, ⟨rfl, rfl⟩, ⟨rfl, rfl⟩, ⟨rfl, rfl⟩,
    ⟨?_, ?_⟩, ⟨rfl, rfl⟩, ⟨rfl, rfl⟩, ⟨rfl, rfl⟩⟩
  · unfold assignPermissionToRole
    cases hb : strIncludes e "duplicate" <;> simp [hb]
  · unfold assignPermissionToRole
    cases hb : strIncludes e "duplicate" <;> simp [hb]

/-- C3: if any of the three concurrent reads of the refresh fails, the whole
refresh fails — the error toast is reported and none of the three local
collections is replaced (the prior mirror is returned whole, so no state
mixes replaced and unreplaced collections). -/
theorem refresh_failure_keeps_mirror :
    ∀ (st : RBACState) (pr : RemoteResult (List Permission)) (rr : RemoteResult (List Role))
      (xr : RemoteResult (List RolePermission)),
      (pr.isErr = true ∨ rr.isErr = true ∨ xr.isErr = true) →
        fetchData true st pr rr xr = (st, [loadErrorToast]) := by
  intro st pr rr xr h
  cases pr <;> cases rr <;> cases xr <;> simp_all [fetchData, RemoteResult.isErr]

/-- C3 witness: a failing role_permissions read on a nonempty mirror leaves
the mirror intact and reports the load error. -/
theorem refresh_failure_keeps_mirror_witness :
    ((RemoteResult.err "boom" : RemoteResult (List RolePermission)).isErr = true ∨ False) ∧
      fetchData true ⟨[⟨"p1", "a", none, "t"⟩], [⟨"r1", "R", none, "t"⟩], []⟩
          (.ok []) (.ok []) (.err "boom") =
        (⟨[⟨"p1", "a", none, "t"⟩], [⟨"r1", "R", none, "t"⟩], []⟩, [loadErrorToast]) :=
  ⟨Or.inl rfl,
   refresh_failure_keeps_mirror ⟨[⟨"p1", "a", none, "t"⟩], [⟨"r1", "R", none, "t"⟩], []⟩
     (.ok []) (.ok []) (.err "boom") (Or.inr (Or.inr rfl))⟩

/-- The sort applied after every insert/update yields a `name`-ordered
list. -/
theorem nameSorted_sortByName (nm : α → String) (l : List α) :
    NameSorted nm (sortByName nm l) := by
  unfold NameSorted sortByName
  have h := @List.sorted_mergeSort α (fun a b : α => decide (nm a ≤ nm b))
    (fun a b c hab hbc => by
      simp only [decide_eq_true_eq] at hab hbc ⊢
      exact le_trans hab hbc)
    (fun a b => by
      simp only [Bool.or_eq_true, decide_eq_true_eq]
      exact le_total _ _)
    l
  exact h.imp (fun hab => by simpa using hab)

/-- Removing entries preserves the `name` ordering. -/
theorem nameSorted_filter (nm : α → String) (f : α → Bool) {l : List α}
    (h : NameSorted nm l) : NameSorted nm (l.filter f) :=
  List.Pairwise.sublist (List.filter_sublist l) h

/-- The error branch of `assignPermissionToRole` leaves the mirror
untouched whichever toast it picks. -/
theorem assign_err_st (st : RBACState) (roleId permissionId e : String) :
    (assignPermissionToRole st roleId permissionId (.err e)).st = st := by
  unfold assignPermissionToRole
  cases hb : strIncludes e "duplicate" <;> simp [hb]

/-- Every single operation preserves the ordering of both name-sorted
collections. -/
theorem applyOp_nameSorted {st : RBACState} (op : MirrorOp)
    (hp : NameSorted Permission.name st.permissions)
    (hr : NameSorted Role.name st.roles) :
    NameSorted Permission.name (applyOp st op).permissions ∧
      NameSorted Role.name (applyOp st op).roles := by
  cases op with
  | opCreateP n d res =>
    cases res with
    | err e => exact ⟨hp, hr⟩
    | ok data => exact ⟨nameSorted_sortByName _ _, hr⟩
  | opUpdateP i n d res =>
    cases res with
    | err e => exact ⟨hp, hr⟩
    | ok data => exact ⟨nameSorted_sortByName _ _, hr⟩
  | opDeleteP i err =>
    cases err with
    | some e => exact ⟨hp, hr⟩
    | none => exact ⟨nameSorted_filter _ _ hp, hr⟩
  | opCreateR n d res =>
    cases res with
    | err e => exact ⟨hp, hr⟩
    | ok data => exact ⟨hp, nameSorted_sortByName _ _⟩
  | opUpdateR i n d res =>
    cases res with
    | err e => exact ⟨hp, hr⟩
    | ok data => exact ⟨hp, nameSorted_sortByName _ _⟩
  | opDeleteR i err =>
    cases err with
    | some e => exact ⟨hp, hr⟩
    | none => exact ⟨hp, nameSorted_filter _ _ hr⟩
  | opAssign r p res =>
    cases res with
    | err e =>
      have h := assign_err_st st r p e
      simp only [applyOp, h]
      exact ⟨hp, hr⟩
    | ok data => exact ⟨hp, hr⟩
  | opRemove r p err =>
    cases err with
    | some e => exact ⟨hp, hr⟩
    | none => exact ⟨hp, hr⟩

/-- Ordering is preserved along any operation sequence. -/
theorem applyOps_nameSorted (ops : List MirrorOp) :
    ∀ (st : RBACState), NameSorted Permission.name st.permissions →
      NameSorted Role.name st.roles →
      NameSorted Permission.name (applyOps st ops).permissions ∧
        NameSorted Role.name (applyOps st ops).roles := by
  induction ops with
  | nil => exact fun st hp hr => ⟨hp, hr⟩
  | cons op rest ih =>
    intro st hp hr
    have h := applyOp_nameSorted op hp hr
    exact ih (applyOp st op) h.1 h.2

/-- C4: after every successful insert or update the affected mirror is
name-sorted unconditionally, and along any sequence of create/update/delete
(and assign/remove) operations starting from a sorted mirror both the
Permission and the Role collections remain name-sorted after each
operation. -/
theorem mirror_sorted_invariant :
    (∀ (st : RBACState) (ops : List MirrorOp),
        NameSorted Permission.name st.permissions → NameSorted Role.name st.roles →
          NameSorted Permission.name (applyOps st ops).permissions ∧
            NameSorted Role.name (applyOps st ops).roles) ∧
      (∀ (st : RBACState) (n i : String) (d : Option String) (pd : Permission) (rd : Role),
        NameSorted Permission.name (createPermission st n d (.ok pd)).st.permissions ∧
          NameSorted Permission.name (updatePermission st i n d (.ok pd)).st.permissions ∧
          NameSorted Role.name (createRole st n d (.ok rd)).st.roles ∧
          NameSorted Role.name (updateRole st i n d (.ok rd)).st.roles) :=
  ⟨fun st ops hp hr => applyOps_nameSorted ops st hp hr,
   fun st n i d pd rd =>
    ⟨nameSorted_sortByName _ _, nameSorted_sortByName _ _,
     nameSorted_sortByName _ _, nameSorted_sortByName _ _⟩⟩

/-- C4 witness: starting from the empty (trivially sorted) mirror, two
successful creates arriving in reverse alphabetical order leave both
collections sorted. -/
theorem mirror_sorted_invariant_witness :
    NameSorted Permission.name (RBACState.mk [] [] []).permissions ∧
      NameSorted Role.name (RBACState.mk [] [] []).roles ∧
      (NameSorted Permission.name
          (applyOps ⟨[], [], []⟩
            [.opCreateP "b" none (.ok ⟨"p1", "b", none, "t"⟩),
             .opCreateP "a" none (.ok ⟨"p2", "a", none, "t"⟩)]).permissions ∧
        NameSorted Role.name
          (applyOps ⟨[], [], []⟩
            [.opCreateP "b" none (.ok ⟨"p1", "b", none, "t"⟩),
             .opCreateP "a" none (.ok ⟨"p2", "a", none, "t"⟩)]).roles) :=
  ⟨List.Pairwise.nil, List.Pairwise.nil,
   mirror_sorted_invariant.1 ⟨[], [], []⟩
     [.opCreateP "b" none (.ok ⟨"p1", "b", none, "t"⟩),
      .opCreateP "a" none (.ok ⟨"p2", "a", none, "t"⟩)]
     List.Pairwise.nil List.Pairwise.nil⟩

/-- C8: `removePermissionFromRole` on remote success returns `true`, leaves
Permissions and Roles untouched, keeps exactly the Assignments that do not
match the `(role_id, permission_id)` pair, and when no Assignment matches
the pair the whole mirror is unchanged — an idempotent no-op. -/
theorem remove_assignment_semantics :
    ∀ (st : RBACState) (roleId permissionId : String),
      (removePermissionFromRole st roleId permissionId none).ok = true ∧
        (removePermissionFromRole st roleId permissionId none).st.permissions =
          st.permissions ∧
        (removePermissionFromRole st roleId permissionId none).st.roles = st.roles ∧
        (∀ rp, rp ∈ (removePermissionFromRole st roleId permissionId none).st.rolePermissions ↔
          rp ∈ st.rolePermissions ∧
            ¬(rp.role_id = roleId ∧ rp.permission_id = permissionId)) ∧
        ((∀ rp ∈ st.rolePermissions,
            ¬(rp.role_id = roleId ∧ rp.permission_id = permissionId)) →
          (removePermissionFromRole st roleId permissionId none).st = st) := by
  intro st roleId permissionId
  refine ⟨rfl, rfl, rfl, ?_, ?_⟩
  · intro rp
    show rp ∈ st.rolePermissions.filter
        (fun rp => !(rp.role_id == roleId && rp.permission_id == permissionId)) ↔ _
    rw [List.mem_filter]
    simp [beq_iff_eq, -not_and]
    tauto
  · intro h
    have hf : st.rolePermissions.filter
        (fun rp => !(rp.role_id == roleId && rp.permission_id == permissionId)) =
          st.rolePermissions := by
      apply List.filter_eq_self.mpr
      intro a ha
      have := h a ha
      simp [beq_iff_eq]
      tauto
    have hst : (removePermissionFromRole st roleId permissionId none).st =
        { st with rolePermissions :=
                    st.rolePermissions.filter
                      (fun rp =>
                        !(rp.role_id == roleId && rp.permission_id == permissionId)) } := rfl
    rw [hst, hf]

/-- C8 witness: with a single non-matching Assignment in the mirror,
removing the pair ("r", "p") succeeds and changes nothing. -/
theorem remove_assignment_semantics_witness :
    (∀ rp ∈ (⟨[], [], [⟨"l1", "rX", "pX", "t"⟩]⟩ : RBACState).rolePermissions,
        ¬(rp.role_id = "r" ∧ rp.permission_id = "p")) ∧
      (removePermissionFromRole ⟨[], [], [⟨"l1", "rX", "pX", "t"⟩]⟩ "r" "p" none).ok = true ∧
      (removePermissionFromRole ⟨[], [], [⟨"l1", "rX", "pX", "t"⟩]⟩ "r" "p" none).st =
        ⟨[], [], [⟨"l1", "rX", "pX", "t"⟩]⟩ :=
  ⟨by decide,
   (remove_assignment_semantics ⟨[], [], [⟨"l1", "rX", "pX", "t"⟩]⟩ "r" "p").1,
   (remove_assignment_semantics ⟨[], [], [⟨"l1", "rX", "pX", "t"⟩]⟩ "r" "p").2.2.2.2
     (by decide)⟩

/-- C5 counterexample: the value `assignPermissionToRole` returns to its
caller is `null` both when the remote store rejects the pair as a duplicate
and on a generic remote failure — the caller cannot distinguish the two
from the result (the distinction exists only in the toast emitted inside
the hook). -/
theorem assign_duplicate_return_indistinguishable :
    (assignPermissionToRole ⟨[], [], []⟩ "r" "p"
        (.err "duplicate key value violates unique constraint")).ret = none ∧
      (assignPermissionToRole ⟨[], [], []⟩ "r" "p" (.err "network error")).ret = none ∧
      (assignPermissionToRole ⟨[], [], []⟩ "r" "p"
          (.err "duplicate key value violates unique constraint")).ret =
        (assignPermissionToRole ⟨[], [], []⟩ "r" "p" (.err "network error")).ret := by
  refine ⟨by decide, by decide, by decide⟩

/-- C5 (amended): a duplicate rejection (error message containing
"duplicate") fails without mutating local state and is surfaced as the
distinguishable "Already assigned" toast, while any other remote failure
gets the generic toast; the value returned to the caller is `null` in both
cases.  A successful assignment followed by an identical call that the
remote rejects leaves exactly one Assignment for the pair. -/
theorem assign_duplicate_semantics :
    ∀ (st : RBACState) (roleId permissionId e : String),
      (strIncludes e "duplicate" = true →
        assignPermissionToRole st roleId permissionId (.err e) =
          ⟨none, st,
           [⟨"Already assigned", "This permission is already assigned to the role."⟩]⟩) ∧
      (strIncludes e "duplicate" = false →
        assignPermissionToRole st roleId permissionId (.err e) =
          ⟨none, st, [⟨"Error assigning permission", e⟩]⟩) ∧
      (∀ (d : RolePermission) (e2 : String),
        d.role_id = roleId → d.permission_id = permissionId →
        st.rolePermissions.filter
            (fun rp => rp.role_id == roleId && rp.permission_id == permissionId) = [] →
        ((assignPermissionToRole
              (assignPermissionToRole st roleId permissionId (.ok d)).st
              roleId permissionId (.err e2)).st.rolePermissions.filter
            (fun rp => rp.role_id == roleId && rp.permission_id == permissionId)).length = 1) := by
  intro st roleId permissionId e
  refine ⟨?_, ?_, ?_⟩
  · intro h
    unfold assignPermissionToRole
    simp [h]
  · intro h
    unfold assignPermissionToRole
    simp [h]
  · intro d e2 hd1 hd2 hnone
    have h1 : (assignPermissionToRole st roleId permissionId (.ok d)).st.rolePermissions =
        st.rolePermissions ++ [d] := rfl
    rw [assign_err_st, h1, List.filter_append, hnone]
    simp [List.filter, hd1, hd2]

/-- C5 witness: from an empty mirror, a successful assignment of ("r", "p")
followed by an identical call that the remote rejects as a duplicate leaves
exactly one Assignment for the pair, and the rejection is surfaced as the
"Already assigned" toast with the mirror unchanged. -/
theorem assign_duplicate_semantics_witness :
    strIncludes "duplicate key value" "duplicate" = true ∧
      assignPermissionToRole ⟨[], [], []⟩ "r" "p" (.err "duplicate key value") =
        ⟨none, ⟨[], [], []⟩,
         [⟨"Already assigned", "This permission is already assigned to the role."⟩]⟩ ∧
      ((assignPermissionToRole
            (assignPermissionToRole ⟨[], [], []⟩ "r" "p" (.ok ⟨"l1", "r", "p", "t"⟩)).st
            "r" "p" (.err "duplicate key value")).st.rolePermissions.filter
          (fun rp => rp.role_id == "r" && rp.permission_id == "p")).length = 1 :=
  ⟨by decide,
   (assign_duplicate_semantics ⟨[], [], []⟩ "r" "p" "duplicate key value").1 (by decide),
   (assign_duplicate_semantics ⟨[], [], []⟩ "r" "p" "duplicate key value").2.2
     ⟨"l1", "r", "p", "t"⟩ "duplicate key value" rfl rfl (by decide)⟩

/-- C6 counterexample: `createPermission` performs no blank-name check — on
a whitespace-only name it still issues the remote insert, and when the
store accepts it the call succeeds and the mirror is mutated. -/
theorem blank_name_create_counterexample :
    (createPermission ⟨[], [], []⟩ " " none (.ok ⟨"p1", " ", none, "t"⟩)).ret =
        some ⟨"p1", " ", none, "t"⟩ ∧
      (createPermission ⟨[], [], []⟩ " " none (.ok ⟨"p1", " ", none, "t"⟩)).st.permissions =
        [⟨"p1", " ", none, "t"⟩] := by
  refine ⟨by decide, ?_⟩
  simp [createPermission, sortByName, List.mergeSort_singleton]

/-- C6 (amended): the empty/blank-name rejection lives in the Permissions
page form, not in `createPermission`: `handleSubmit` returns without
invoking `createPermission` (so no remote insert is issued and the mirror is
untouched) whenever the trimmed name is empty, while `createPermission`
itself forwards any name to the remote insert and reconciles on success. -/
theorem blank_name_rejected_by_form :
    ∀ (st : RBACState) (name description : String) (res : RemoteResult Permission),
      (jsTrim name = "" →
        handleSubmitCreate st name description res = (false, ⟨none, st, []⟩)) ∧
      (∀ (n : String) (d : Option String) (pd : Permission),
        (createPermission st n d (.ok pd)).ret = some pd) := by
  intro st name description res
  refine ⟨?_, fun n d pd => rfl⟩
  intro h
  unfold handleSubmitCreate
  simp [h]

/-- C6 witness: a three-space name is rejected by the form guard: no hook
call, no state change. -/
theorem blank_name_rejected_by_form_witness :
    jsTrim "   " = "" ∧
      handleSubmitCreate ⟨[], [], []⟩ "   " "" (.ok ⟨"p1", "x", none, "t"⟩) =
        (false, ⟨none, ⟨[], [], []⟩, []⟩) :=
  ⟨by decide,
   (blank_name_rejected_by_form ⟨[], [], []⟩ "   " "" (.ok ⟨"p1", "x", none, "t"⟩)).1
     (by decide)⟩

/-- C9: for `assign_permission` / `remove_permission` actions, role and
permission names are resolved by case-insensitive exact match against the
mirror; when the role name has no match the dispatcher returns the
not-found failure naming the role, and when the role resolves but the
permission name has no match it returns the not-found failure naming the
permission — in both cases no hook operation (hence no remote call) is
issued and the mirror is unchanged. -/
theorem dispatch_not_found :
    ∀ (st : RBACState) (env : RemoteEnv) (d : AIData) (a msg rn pn : String)
      (er : Option String),
      (a = "assign_permission" ∨ a = "remove_permission") →
      d.role_name = some rn → d.permission_name = some pn → rn ≠ "" → pn ≠ "" →
      ((∀ r ∈ st.roles, jsToLower r.name ≠ jsToLower rn) →
        executeAction st env ⟨a, some d, msg, er⟩ =
          (⟨false, s!"Role \"{rn}\" not found"⟩, st, [])) ∧
      (∀ role, st.roles.find? (fun r => jsToLower r.name == jsToLower rn) = some role →
        (∀ p ∈ st.permissions, jsToLower p.name ≠ jsToLower pn) →
        executeAction st env ⟨a, some d, msg, er⟩ =
          (⟨false, s!"Permission \"{pn}\" not found"⟩, st, [])) := by
  intro st env d a msg rn pn er ha hrn hpn hrne hpne
  have hre : rn.isEmpty = false := by
    rw [Bool.eq_false_iff]
    intro hc
    exact hrne ((String.isEmpty_iff rn).mp hc)
  have hpe : pn.isEmpty = false := by
    rw [Bool.eq_false_iff]
    intro hc
    exact hpne ((String.isEmpty_iff pn).mp hc)
  constructor
  · intro hnone
    have hfind : st.roles.find? (fun r => jsToLower r.name == jsToLower rn) = none := by
      apply List.find?_eq_none.mpr
      intro r hr
      simp only [beq_iff_eq]
      exact hnone r hr
    rcases ha with ha | ha <;> subst ha <;>
      simp [executeAction, optBlank, hrn, hpn, hre, hpe, hfind]
  · intro role hrole hnonep
    have hfindp : st.permissions.find? (fun p => jsToLower p.name == jsToLower pn) = none := by
      apply List.find?_eq_none.mpr
      intro p hp
      simp only [beq_iff_eq]
      exact hnonep p hp
    rcases ha with ha | ha <;> subst ha <;>
      simp [executeAction, optBlank, hrn, hpn, hre, hpe, hrole, hfindp]

/-- C9 witness: the spec scenario — assigning "can_delete" to the
nonexistent role "Viewer" yields the not-found failure naming "Viewer",
with the mirror unchanged and no hook call. -/
theorem dispatch_not_found_witness :
    (∀ r ∈ (⟨[⟨"p1", "can_delete", none, "t"⟩], [⟨"r1", "Admin", none, "t"⟩], []⟩ :
        RBACState).roles, jsToLower r.name ≠ jsToLower "Viewer") ∧
      executeAction ⟨[⟨"p1", "can_delete", none, "t"⟩], [⟨"r1", "Admin", none, "t"⟩], []⟩
          ⟨.err "", .err "", .err "", none⟩
          ⟨"assign_permission", some ⟨none, none, some "Viewer", some "can_delete"⟩, "m", none⟩ =
        (⟨false, "Role \"Viewer\" not found"⟩,
         ⟨[⟨"p1", "can_delete", none, "t"⟩], [⟨"r1", "Admin", none, "t"⟩], []⟩, []) :=
  ⟨by decide,
   (dispatch_not_found ⟨[⟨"p1", "can_delete", none, "t"⟩], [⟨"r1", "Admin", none, "t"⟩], []⟩
      ⟨.err "", .err "", .err "", none⟩ ⟨none, none, some "Viewer", some "can_delete"⟩
      "assign_permission" "m" "Viewer" "can_delete" none (Or.inl rfl) rfl rfl
      (by decide) (by decide)).1 (by decide)⟩

/-- C10: any action value outside the six known ones falls to the switch's
default branch: `executeAction` returns `success: true` with the
model-supplied message unchanged, performs no hook call (hence no CRUD /
remote call) and leaves the mirror unchanged. -/
theorem unknown_action_passthrough :
    ∀ (st : RBACState) (env : RemoteEnv) (resp : AIResponse),
      resp.action ≠ "create_permission" → resp.action ≠ "create_role" →
      resp.action ≠ "assign_permission" → resp.action ≠ "remove_permission" →
      resp.action ≠ "info" → resp.action ≠ "error" →
      executeAction st env resp = (⟨true, resp.message⟩, st, []) := by
  intro st env resp h1 h2 h3 h4 h5 h6
  unfold executeAction
  rw [if_neg (by simp [h1]), if_neg (by simp [h2]), if_neg (by simp [h3]),
    if_neg (by simp [h4]), if_neg (by simp [h5])]

/-- C10 witness: the unknown action "frobnicate" is passed through as a
success with its message, no call, no state change. -/
theorem unknown_action_passthrough_witness :
    ("frobnicate" ≠ "create_permission" ∧ "frobnicate" ≠ "create_role" ∧
        "frobnicate" ≠ "assign_permission" ∧ "frobnicate" ≠ "remove_permission" ∧
        "frobnicate" ≠ "info" ∧ "frobnicate" ≠ "error") ∧
      executeAction ⟨[], [], []⟩ ⟨.err "", .err "", .err "", none⟩
          ⟨"frobnicate", none, "hello", none⟩ =
        (⟨true, "hello"⟩, ⟨[], [], []⟩, []) :=
  ⟨⟨by decide, by decide, by decide, by decide, by decide, by decide⟩,
   unknown_action_passthrough ⟨[], [], []⟩ ⟨.err "", .err "", .err "", none⟩
     ⟨"frobnicate", none, "hello", none⟩ (by decide) (by decide) (by decide) (by decide)
     (by decide) (by decide)⟩
